import Mathlib

/-!
Shallow embedding of the multiplayer arena room coordinator (the `Server`
class of the repository): room lifecycle, combat resolution, powerup
spawning/expiry, and the periodic room tick, together with theorems
checking the specification's claims against these definitions.

Modelling conventions:
* The external key/value store is modelled explicitly: per-user state is an
  association list keyed by account id, room state is a structure whose
  fields are `Option`-valued where the JavaScript field may be `undefined`.
* `Date.now()` is an explicit `now : Int` parameter; `Math.random()` draws
  are an injected stream `r : Nat -> Nat`, where `r i` stands for the
  already-scaled value `Math.floor(Math.random() * range)` of the i-th
  draw (reduced `% range` to keep the function total).
* JavaScript truthiness is modelled where the code relies on it:
  `targetState.health || 100` treats a stored `0` (and a missing field) as
  100, and `killerId && ...` treats a missing or empty id as absent.
-/

/-- Configuration constants from the `Server` constructor. -/
structure Server where
  MAX_PLAYERS_PER_ROOM : Nat := 8
  POWERUP_SPAWN_INTERVAL : Int := 10000
  POWERUP_TYPES : List String := ["health", "speed"]
  OBSTACLE_COUNT : Nat := 30

/-- The server instance as built by the constructor. -/
def server : Server := {}

/-- An obstacle coordinate pair, as pushed by `generateObstacles`. -/
structure Obstacle where
  x : Int
  y : Int
deriving DecidableEq

/-- A powerup record, as built by `spawnPowerup` (`type` is `ptype` here). -/
structure Powerup where
  id : String
  x : Int
  y : Int
  ptype : String
  createdAt : Int
deriving DecidableEq

/-- Per-user state fields touched by the coordinator; `Option` models a
field the store may not hold yet. -/
structure PlayerState where
  x : Option Int := none
  y : Option Int := none
  angle : Option Int := none
  health : Option Int := none
  score : Option Int := none
  name : Option String := none
deriving DecidableEq

/-- A fresh per-user record, before any field has been written. -/
def emptyPlayer : PlayerState := {}

/-- Room-scoped state fields; a fresh room has none of them set
(`initialized` reads as false, matching `!roomState.initialized`). -/
structure RoomState where
  initialized : Bool := false
  gameTime : Option Int := none
  powerups : Option (List Powerup) := none
  obstacles : Option (List Obstacle) := none
  lastPowerupSpawn : Option Int := none
deriving DecidableEq

/-- The full store for one room: occupant accounts, room state, per-user
states keyed by account id. -/
structure GlobalState where
  roomUsers : List String := []
  roomState : RoomState := {}
  userStates : List (String × PlayerState) := []
deriving DecidableEq

/-- `$room.getUserState(id)`: first binding for the key, if any. -/
def lookupUser : List (String × PlayerState) → String → Option PlayerState
  | [], _ => none
  | (k, v) :: rest, id => if k = id then some v else lookupUser rest id

/-- Write a user's full record: replace the first binding or append. -/
def setUser : List (String × PlayerState) → String → PlayerState → List (String × PlayerState)
  | [], id, ps => [(id, ps)]
  | (k, v) :: rest, id, ps =>
      if k = id then (id, ps) :: rest else (k, v) :: setUser rest id ps

/-- `$room.updateUserState(id, partial)`: merge `f` into the stored record
(or into a fresh record when the user has none). -/
def updateUser (us : List (String × PlayerState)) (id : String)
    (f : PlayerState → PlayerState) : List (String × PlayerState) :=
  setUser us id (f ((lookupUser us id).getD emptyPlayer))

/-- `generateObstacles`: pushes `OBSTACLE_COUNT` coordinate pairs, each
drawn as `Math.floor(Math.random() * 1800) + 100`; the i-th pair uses
draws `2*i` (x) and `2*i + 1` (y). -/
def generateObstacles (srv : Server) (r : Nat → Nat) : List Obstacle :=
  (List.range srv.OBSTACLE_COUNT).map
    (fun i => { x := ((r (2 * i) % 1800 + 100 : Nat) : Int),
                y := ((r (2 * i + 1) % 1800 + 100 : Nat) : Int) })

/-- The one-time room initialization block written by `joinRoom` when
`!roomState.initialized`. -/
def initRoomState (srv : Server) (rs : RoomState) (now : Int) (r : Nat → Nat) : RoomState :=
  { rs with
    initialized := true
    gameTime := some 0
    powerups := some []
    obstacles := some (generateObstacles srv r)
    lastPowerupSpawn := some now }

/-- Body of `joinRoom` past the capacity check: `$global.joinRoom` adds the
caller to the room, `updateMyState` initializes the caller's record
(draws `r 0`, `r 1`), then the room is initialized if it was not.
`generateObstacles` continues on the same random stream, so it starts at
draw index 2. -/
def joinRoomBody (srv : Server) (st : GlobalState) (caller : String) (now : Int)
    (r : Nat → Nat) : GlobalState :=
  let st1 : GlobalState := { st with roomUsers := st.roomUsers ++ [caller] }
  let st2 : GlobalState :=
    { st1 with
      userStates := updateUser st1.userStates caller
        (fun p => { p with
          x := some ((r 0 % 1800 + 100 : Nat) : Int)
          y := some ((r 1 % 1800 + 100 : Nat) : Int)
          health := some 100
          score := some 0 }) }
  if st2.roomState.initialized then st2
  else { st2 with roomState := initRoomState srv st2.roomState now (fun i => r (i + 2)) }

/-- `joinRoom(roomId)`: with a target room id, reject when the occupant
count has reached `MAX_PLAYERS_PER_ROOM`, before any mutation; otherwise
run the join body and return the joined room id. -/
def joinRoom (srv : Server) (st : GlobalState) (caller : String) (roomId : Option String)
    (now : Int) (r : Nat → Nat) : GlobalState × Except String String :=
  match roomId with
  | some rid =>
      if st.roomUsers.length ≥ srv.MAX_PLAYERS_PER_ROOM then
        (st, Except.error "Room is full")
      else
        (joinRoomBody srv st caller now r, Except.ok rid)
  | none => (joinRoomBody srv st caller now r, Except.ok "new-room")

/-- `setPlayerData(data)`: merge the display name into the caller's state. -/
def setPlayerData (st : GlobalState) (caller : String) (name : String) :
    GlobalState × String :=
  let us := updateUser st.userStates caller (fun p => { p with name := some name })
  ({ st with userStates := us }, "success")

/-- Client payload of `updatePlayerPosition`. -/
structure PositionData where
  x : Int
  y : Int
  angle : Int
  health : Int
deriving DecidableEq

/-- `updatePlayerPosition(data)`: merge the client-supplied `x`, `y`,
`angle` and `health` into the caller's state, with no validation. -/
def updatePlayerPosition (st : GlobalState) (caller : String) (data : PositionData) :
    GlobalState × String :=
  let us := updateUser st.userStates caller
    (fun p => { p with
      x := some data.x
      y := some data.y
      angle := some data.angle
      health := some data.health })
  ({ st with userStates := us }, "success")

/-- Client payload of `playerHit`. -/
structure HitData where
  targetId : String
  attackerId : String
  damage : Int
deriving DecidableEq

/-- JavaScript `targetState.health || 100`: a missing field or a stored 0
(both falsy) yield the default 100. -/
def healthOrDefault (h : Option Int) : Int :=
  match h with
  | none => 100
  | some v => if v = 0 then 100 else v

/-- `playerHit(data)`: if the target has no record, report
"player not found" without mutation; otherwise persist
`max(0, (health || 100) - damage)` as the target's health. -/
def playerHit (st : GlobalState) (data : HitData) : GlobalState × String :=
  match lookupUser st.userStates data.targetId with
  | none => (st, "player not found")
  | some ts =>
      let newHealth := max 0 (healthOrDefault ts.health - data.damage)
      let us := updateUser st.userStates data.targetId
        (fun p => { p with health := some newHealth })
      ({ st with userStates := us }, "success")

/-- Client payload of `playerDied`; `killerId` may be absent. -/
structure DeathData where
  playerId : String
  killerId : Option String
deriving DecidableEq

/-- JavaScript truthiness of `killerId`: absent or empty is falsy. -/
def idPresent : Option String → Bool
  | none => false
  | some s => s ≠ ""

/-- The killer block of `playerDied`: when `killerId` is truthy and differs
from the victim, look the killer up and, if present, persist
`(score || 0) + 1`; in every other case leave the store as it is. -/
def playerDiedKiller (st1 : GlobalState) (playerId : String) (killerId : Option String) :
    GlobalState :=
  match killerId with
  | some k =>
      if k ≠ "" ∧ k ≠ playerId then
        match lookupUser st1.userStates k with
        | some ks =>
            let us2 := updateUser st1.userStates k
              (fun p => { p with score := some (ks.score.getD 0 + 1) })
            { st1 with userStates := us2 }
        | none => st1
      else st1
  | none => st1

/-- `playerDied(data)`: reset the victim's health to 100, then run the
killer block, and return "success". -/
def playerDied (st : GlobalState) (data : DeathData) : GlobalState × String :=
  let us1 := updateUser st.userStates data.playerId
    (fun p => { p with health := some 100 })
  (playerDiedKiller { st with userStates := us1 } data.playerId data.killerId, "success")

/-- The powerup record built by `spawnPowerup` at time `now`: the id is the
template string `powerup_${Date.now()}`, the type is drawn from
`POWERUP_TYPES` (draw `r 0`), the position uses draws `r 1`, `r 2`. -/
def newPowerup (srv : Server) (now : Int) (r : Nat → Nat) : Powerup :=
  { id := "powerup_" ++ toString now
    x := ((r 1 % 1800 + 100 : Nat) : Int)
    y := ((r 2 % 1800 + 100 : Nat) : Int)
    ptype := (srv.POWERUP_TYPES.getD (r 0 % srv.POWERUP_TYPES.length) "health")
    createdAt := now }

/-- `spawnPowerup`: append the new powerup to `powerups || []` and persist
it together with `lastPowerupSpawn = now` (room-state part; the broadcast
carries no stored state). -/
def spawnPowerupRS (srv : Server) (rs : RoomState) (now : Int) (r : Nat → Nat) : RoomState :=
  { rs with
    powerups := some (rs.powerups.getD [] ++ [newPowerup srv now r])
    lastPowerupSpawn := some now }

/-- `collectPowerup(powerupId)`: persist `powerups || []` with every entry
of that id removed. -/
def collectPowerup (rs : RoomState) (powerupId : String) : RoomState :=
  { rs with powerups := some ((rs.powerups.getD []).filter
      (fun p => decide (p.id ≠ powerupId))) }

/-- Tick step 1: `gameTime = (roomState.gameTime || 0) + deltaMS`. -/
def tickGameTime (rs : RoomState) (deltaMS : Int) : RoomState :=
  { rs with gameTime := some (rs.gameTime.getD 0 + deltaMS) }

/-- Tick step 2: spawn when `now - (lastPowerupSpawn || 0)` exceeds the
interval. The condition reads the tick's initial `snapshot`; the spawn
itself re-reads and updates the current state `rs1`. -/
def tickSpawn (srv : Server) (snapshot rs1 : RoomState) (now : Int) (r : Nat → Nat) : RoomState :=
  if now - snapshot.lastPowerupSpawn.getD 0 > srv.POWERUP_SPAWN_INTERVAL then
    spawnPowerupRS srv rs1 now r
  else rs1

/-- Tick step 3: expiry. The guard `roomState.powerups &&
roomState.powerups.length > 0`, the filter and both length reads all use
the tick's initial `snapshot` of `powerups` (a missing field reads as the
empty list, which the length guard skips); only when the filtered length
differs is the filtered snapshot persisted over the current state `rs2`. -/
def tickExpire (snapshot rs2 : RoomState) (now : Int) : RoomState :=
  if (snapshot.powerups.getD []).length > 0 then
    if ((snapshot.powerups.getD []).filter
          (fun p => decide (now - p.createdAt < 30000))).length
        ≠ (snapshot.powerups.getD []).length then
      { rs2 with
        powerups := some ((snapshot.powerups.getD []).filter
          (fun p => decide (now - p.createdAt < 30000))) }
    else rs2
  else rs2

/-- `$roomTick(deltaMS, roomId)`: advance game time, maybe spawn, then run
expiry against the initial snapshot. -/
def roomTick (srv : Server) (rs : RoomState) (deltaMS : Int) (now : Int)
    (r : Nat → Nat) : RoomState :=
  tickExpire rs (tickSpawn srv rs (tickGameTime rs deltaMS) now r) now

/-- The two joiners of the concurrent first-join scenario. -/
inductive Joiner
  | A
  | B
deriving DecidableEq

/-- The store operations of joinRoom's room-initialization section, as the
interleavable atomic steps: read `roomState.initialized`, then the
conditional `updateRoomState` write. -/
inductive InitStep
  | readFlag
  | writeInit
deriving DecidableEq

/-- A joiner's local view: the value of `!roomState.initialized` it read,
once it has read it. -/
structure InitLocal where
  sawUninit : Option Bool := none
deriving DecidableEq

/-- Shared room state, both joiners' local views, and a log of every
obstacle layout that was generated and written. -/
structure InitWorld where
  room : RoomState := {}
  localA : InitLocal := {}
  localB : InitLocal := {}
  written : List (List Obstacle) := []
deriving DecidableEq

/-- One atomic step of a joiner: reading records `!initialized`; writing
runs the initialization block (with that joiner's own random stream) only
when the joiner's earlier read saw the room uninitialized. -/
def execInitStep (srv : Server) (now : Int) (rA rB : Nat → Nat) (w : InitWorld) :
    Joiner × InitStep → InitWorld
  | (Joiner.A, InitStep.readFlag) =>
      { w with localA := { sawUninit := some (!w.room.initialized) } }
  | (Joiner.B, InitStep.readFlag) =>
      { w with localB := { sawUninit := some (!w.room.initialized) } }
  | (Joiner.A, InitStep.writeInit) =>
      if w.localA.sawUninit = some true then
        { w with room := initRoomState srv w.room now rA
                 written := w.written ++ [generateObstacles srv rA] }
      else w
  | (Joiner.B, InitStep.writeInit) =>
      if w.localB.sawUninit = some true then
        { w with room := initRoomState srv w.room now rB
                 written := w.written ++ [generateObstacles srv rB] }
      else w

/-- Run an interleaving (a schedule of joiner steps) from a world. -/
def runInitSchedule (srv : Server) (now : Int) (rA rB : Nat → Nat) (w : InitWorld)
    (sched : List (Joiner × InitStep)) : InitWorld :=
  sched.foldl (execInitStep srv now rA rB) w

/-- The lost-update interleaving: both joiners read before either writes. -/
def raceSchedule : List (Joiner × InitStep) :=
  [(Joiner.A, InitStep.readFlag), (Joiner.B, InitStep.readFlag),
   (Joiner.A, InitStep.writeInit), (Joiner.B, InitStep.writeInit)]

/-- A constant random stream. -/
def rzero : Nat → Nat := fun _ => 0

/-- Another constant random stream, giving different draws than rzero. -/
def rone : Nat → Nat := fun _ => 1

/-- The per-player health bound 0 <= health <= 100 (a missing field has no
bound to violate). -/
def healthOkB (p : PlayerState) : Bool :=
  match p.health with
  | none => true
  | some h => decide (0 ≤ h ∧ h ≤ 100)

/-- Every stored player record satisfies the health bound. -/
def healthInvB (st : GlobalState) : Bool :=
  st.userStates.all (fun q => healthOkB q.2)

/-- The effective score read off a user-state list: `(score || 0)` of the
record, 0 when there is no record. -/
def scoreValL (us : List (String × PlayerState)) (uid : String) : Int :=
  (((lookupUser us uid).getD emptyPlayer).score).getD 0

/-- The effective score of a player in the store. -/
def scoreVal (st : GlobalState) (uid : String) : Int :=
  scoreValL st.userStates uid

/-- A room store with one player holding 50 health. -/
def stC1 : GlobalState := { userStates := [("p", { health := some 50 })] }

/-- A room store whose target player has stored health 0. -/
def stC2 : GlobalState := { userStates := [("t", { health := some 0 })] }

/-- A room store whose target player has stored health 20. -/
def stW2 : GlobalState := { userStates := [("t2", { health := some 20 })] }

/-- A room already holding the maximum of 8 occupants. -/
def stFull : GlobalState :=
  { roomUsers := ["u1", "u2", "u3", "u4", "u5", "u6", "u7", "u8"] }

/-- A room store with a victim and a separate killer. -/
def stC4 : GlobalState :=
  { userStates := [("v", { health := some 40, score := some 2 }),
                   ("k", { score := some 5 })] }

/-- A room state due for a spawn (last spawn 15000 ms ago at now = 100000)
whose only powerup is already expired (age 40000 ms). -/
def rsC6 : RoomState :=
  { initialized := true
    gameTime := some 0
    powerups := some [{ id := "powerup_60000", x := 0, y := 0, ptype := "health",
                        createdAt := 60000 }]
    obstacles := some []
    lastPowerupSpawn := some 85000 }

/-- Like rsC6 but its only powerup is still young (age 5000 ms). -/
def rsC6w : RoomState :=
  { initialized := true
    gameTime := some 0
    powerups := some [{ id := "powerup_95000", x := 0, y := 0, ptype := "speed",
                        createdAt := 95000 }]
    obstacles := some []
    lastPowerupSpawn := some 85000 }

/-- A room state not due for a spawn (last spawn 1000 ms ago). -/
def rsCold : RoomState :=
  { initialized := true, gameTime := some 0, powerups := some []
    obstacles := some [], lastPowerupSpawn := some 99000 }

/-- A powerup 30001 ms old at now = 100000. -/
def pOld : Powerup :=
  { id := "powerup_69999", x := 1, y := 1, ptype := "health", createdAt := 69999 }

/-- A powerup 29999 ms old at now = 100000. -/
def pYoung : Powerup :=
  { id := "powerup_70001", x := 2, y := 2, ptype := "speed", createdAt := 70001 }

/-- A room state holding exactly pOld and pYoung, not due for a spawn. -/
def rsC7 : RoomState :=
  { initialized := true, gameTime := some 0, powerups := some [pOld, pYoung]
    obstacles := some [], lastPowerupSpawn := some 99999 }

theorem lookupUser_setUser_self (us : List (String × PlayerState)) (id : String)
    (ps : PlayerState) : lookupUser (setUser us id ps) id = some ps := by
  induction us with
  | nil => simp [setUser, lookupUser]
  | cons hd tl ih =>
      obtain ⟨k, v⟩ := hd
      by_cases hk : k = id
      · simp [setUser, hk, lookupUser]
      · simp [setUser, hk, lookupUser, ih]

theorem lookupUser_setUser_other (us : List (String × PlayerState)) (id id' : String)
    (ps : PlayerState) (h : id' ≠ id) :
    lookupUser (setUser us id ps) id' = lookupUser us id' := by
  induction us with
  | nil => simp [setUser, lookupUser, Ne.symm h]
  | cons hd tl ih =>
      obtain ⟨k, v⟩ := hd
      by_cases hk : k = id
      · subst hk
        simp [setUser, lookupUser, Ne.symm h]
      · simp only [setUser, if_neg hk, lookupUser]
        by_cases hk' : k = id' <;> simp [hk', ih]

theorem lookupUser_updateUser_self (us : List (String × PlayerState)) (id : String)
    (f : PlayerState → PlayerState) :
    lookupUser (updateUser us id f) id = some (f ((lookupUser us id).getD emptyPlayer)) := by
  simp [updateUser, lookupUser_setUser_self]

theorem lookupUser_updateUser_other (us : List (String × PlayerState)) (id id' : String)
    (f : PlayerState → PlayerState) (h : id' ≠ id) :
    lookupUser (updateUser us id f) id' = lookupUser us id' := by
  simp [updateUser, lookupUser_setUser_other _ _ _ _ h]

theorem all_lookupUser {g : PlayerState → Bool} (us : List (String × PlayerState))
    (id : String) (ps : PlayerState) (hall : us.all (fun q => g q.2) = true)
    (hl : lookupUser us id = some ps) : g ps = true := by
  induction us with
  | nil => simp [lookupUser] at hl
  | cons hd tl ih =>
      obtain ⟨k, v⟩ := hd
      simp only [List.all_cons, Bool.and_eq_true] at hall
      by_cases hk : k = id
      · simp only [lookupUser, if_pos hk, Option.some.injEq] at hl
        exact hl ▸ hall.1
      · simp only [lookupUser, if_neg hk] at hl
        exact ih hall.2 hl

theorem all_setUser {g : PlayerState → Bool} (us : List (String × PlayerState))
    (id : String) (ps : PlayerState) (hall : us.all (fun q => g q.2) = true)
    (hps : g ps = true) : (setUser us id ps).all (fun q => g q.2) = true := by
  induction us with
  | nil => simp [setUser, hps]
  | cons hd tl ih =>
      obtain ⟨k, v⟩ := hd
      simp only [List.all_cons, Bool.and_eq_true] at hall
      by_cases hk : k = id
      · simp [setUser, hk, hps, List.all_cons, hall.2]
      · simp [setUser, hk, List.all_cons, hall.1, ih hall.2]

theorem all_updateUser {g : PlayerState → Bool} (us : List (String × PlayerState))
    (id : String) (f : PlayerState → PlayerState)
    (hall : us.all (fun q => g q.2) = true) (hemp : g emptyPlayer = true)
    (hf : ∀ p, g p = true → g (f p) = true) :
    (updateUser us id f).all (fun q => g q.2) = true := by
  unfold updateUser
  apply all_setUser _ _ _ hall
  cases hl : lookupUser us id with
  | none => simpa using hf _ hemp
  | some ps => simpa using hf _ (all_lookupUser us id ps hall hl)

theorem tickGameTime_powerups (rs : RoomState) (d : Int) :
    (tickGameTime rs d).powerups = rs.powerups := rfl

theorem tickGameTime_lastSpawn (rs : RoomState) (d : Int) :
    (tickGameTime rs d).lastPowerupSpawn = rs.lastPowerupSpawn := rfl

theorem joinRoomBody_roomState (srv : Server) (st : GlobalState) (caller : String)
    (now : Int) (r : Nat → Nat) :
    (joinRoomBody srv st caller now r).roomState
      = if st.roomState.initialized then st.roomState
        else initRoomState srv st.roomState now (fun i => r (i + 2)) := by
  unfold joinRoomBody
  dsimp only
  split <;> rfl

theorem joinRoomBody_userStates (srv : Server) (st : GlobalState) (caller : String)
    (now : Int) (r : Nat → Nat) :
    (joinRoomBody srv st caller now r).userStates
      = updateUser st.userStates caller
          (fun p => { p with
            x := some ((r 0 % 1800 + 100 : Nat) : Int)
            y := some ((r 1 % 1800 + 100 : Nat) : Int)
            health := some 100
            score := some 0 }) := by
  unfold joinRoomBody
  dsimp only
  split <;> rfl

theorem healthOkB_bounds (p : PlayerState) (hp : healthOkB p = true) :
    0 ≤ healthOrDefault p.health ∧ healthOrDefault p.health ≤ 100 := by
  cases hh : p.health with
  | none => simp [healthOrDefault]
  | some h =>
      simp only [healthOkB, hh, decide_eq_true_eq] at hp
      by_cases h0 : h = 0
      · simp [healthOrDefault, h0]
      · simp only [healthOrDefault, if_neg h0]
        omega

theorem healthOkB_set_score (p : PlayerState) (s : Option Int) :
    healthOkB { p with score := s } = healthOkB p := rfl

theorem healthOkB_set_name (p : PlayerState) (n : Option String) :
    healthOkB { p with name := n } = healthOkB p := rfl

theorem getD_score_updateUser_preserve (us : List (String × PlayerState)) (id uid : String)
    (f : PlayerState → PlayerState) (hf : ∀ p, (f p).score = p.score) :
    (((lookupUser (updateUser us id f) uid).getD emptyPlayer).score).getD 0
      = (((lookupUser us uid).getD emptyPlayer).score).getD 0 := by
  by_cases h : uid = id
  · subst h
    rw [lookupUser_updateUser_self]
    simp [hf]
  · rw [lookupUser_updateUser_other _ _ _ _ h]

/-- C3 (confirmed): a join naming a room whose occupant count has reached
the maximum of 8 fails with the room-full error and mutates no state — the
store is returned unchanged and the occupancy is unchanged. -/
theorem C3_joinRoom_full_rejected (srv : Server) (st : GlobalState) (caller rid : String)
    (now : Int) (r : Nat → Nat)
    (hfull : st.roomUsers.length ≥ srv.MAX_PLAYERS_PER_ROOM) :
    joinRoom srv st caller (some rid) now r = (st, Except.error "Room is full") ∧
    (joinRoom srv st caller (some rid) now r).1.roomUsers.length
      = st.roomUsers.length := by
  have h : joinRoom srv st caller (some rid) now r = (st, Except.error "Room is full") := by
    simp [joinRoom, hfull]
  exact ⟨h, by rw [h]⟩

/-- C3 witness: a concrete room with 8 occupants rejects the 9th join and
leaves all state unchanged. -/
theorem C3_joinRoom_full_rejected_witness :
    joinRoom server stFull "u9" (some "room1") 0 rzero
      = (stFull, Except.error "Room is full") :=
  (C3_joinRoom_full_rejected server stFull "u9" "room1" 0 rzero (by decide)).1

/-- C10 (confirmed): when the target of playerHit exists but its stored
health is 0 or missing, the damage is applied against the default 100, so
the persisted health is max(0, 100 - damage). -/
theorem C10_playerHit_default_health (st : GlobalState) (d : HitData) (ts : PlayerState)
    (hts : lookupUser st.userStates d.targetId = some ts)
    (hh : ts.health = none ∨ ts.health = some 0) :
    ((lookupUser (playerHit st d).1.userStates d.targetId).getD emptyPlayer).health
      = some (max 0 (100 - d.damage)) := by
  have hdef : healthOrDefault ts.health = 100 := by
    rcases hh with hh | hh <;> simp [healthOrDefault, hh]
  simp only [playerHit, hts]
  rw [lookupUser_updateUser_self]
  simp [hdef]

/-- C10 witness: a target with stored health 0, hit with damage 30, ends
with health 70 rather than 0. -/
theorem C10_playerHit_default_health_witness :
    ((lookupUser (playerHit stC2 { targetId := "t", attackerId := "a", damage := 30 }).1.userStates
        "t").getD emptyPlayer).health = some 70 := by
  have h := C10_playerHit_default_health stC2
    { targetId := "t", attackerId := "a", damage := 30 }
    { health := some 0 } (by decide) (Or.inr rfl)
  simpa using h

/-- C2 counterexample: the claim says the persisted health after playerHit
equals max(0, h - damage) for the prior health h; but for a target whose
stored health is 0 and damage 30 the code persists 70, while
max(0, 0 - 30) = 0. -/
theorem C2_counterexample :
    ((lookupUser (playerHit stC2 { targetId := "t", attackerId := "a", damage := 30 }).1.userStates
        "t").getD emptyPlayer).health = some 70 ∧
    (70 : Int) ≠ max 0 (0 - 30) := by decide

/-- C2 (amended): when the target exists with a nonzero stored health h in
[0, 100] and the damage is nonnegative, playerHit persists exactly
max(0, h - damage), which lies in [0, 100], and reports success; when the
stored health is 0 or missing the base value is the default 100 instead. -/
theorem C2_playerHit_clamped_amended (st : GlobalState) (d : HitData) (ts : PlayerState)
    (h : Int) (hts : lookupUser st.userStates d.targetId = some ts)
    (hh : ts.health = some h) (hne : h ≠ 0) (h0 : 0 ≤ h) (h100 : h ≤ 100)
    (hdam : 0 ≤ d.damage) :
    ((lookupUser (playerHit st d).1.userStates d.targetId).getD emptyPlayer).health
      = some (max 0 (h - d.damage)) ∧
    0 ≤ max 0 (h - d.damage) ∧ max 0 (h - d.damage) ≤ 100 ∧
    (playerHit st d).2 = "success" := by
  have hdef : healthOrDefault ts.health = h := by
    simp [healthOrDefault, hh, hne]
  refine ⟨?_, le_max_left 0 _, max_le (by norm_num) (by omega), ?_⟩
  · simp only [playerHit, hts]
    rw [lookupUser_updateUser_self]
    simp [hdef]
  · simp [playerHit, hts]

/-- C2 witness: health 20 and damage 150 yield max(0, 20 - 150) = 0. -/
theorem C2_playerHit_clamped_amended_witness :
    ((lookupUser (playerHit stW2 { targetId := "t2", attackerId := "a", damage := 150 }).1.userStates
        "t2").getD emptyPlayer).health = some 0 := by
  have h := (C2_playerHit_clamped_amended stW2
    { targetId := "t2", attackerId := "a", damage := 150 }
    { health := some 20 } 20 (by decide) rfl (by decide) (by decide) (by decide)
    (by decide)).1
  simpa using h

theorem healthOkB_some (p : PlayerState) (v : Int) :
    healthOkB { p with health := some v } = decide (0 ≤ v ∧ v ≤ 100) := rfl

theorem healthInvB_playerDiedKiller (st1 : GlobalState) (pid : String)
    (kid : Option String) (h : healthInvB st1 = true) :
    healthInvB (playerDiedKiller st1 pid kid) = true := by
  cases kid with
  | none => simpa only [playerDiedKiller] using h
  | some k =>
      simp only [playerDiedKiller]
      by_cases hc : k ≠ "" ∧ k ≠ pid
      · rw [if_pos hc]
        cases hk : lookupUser st1.userStates k with
        | none => exact h
        | some ks =>
            exact all_updateUser _ _ _ h rfl (fun p hp => by rwa [healthOkB_set_score])
      · rw [if_neg hc]; exact h

/-- C1 counterexample: the claim says no operation, including
updatePlayerPosition with client-supplied fields, can leave a persisted
health outside [0, 100]; but updatePlayerPosition persists the
client-supplied health unvalidated, so health 150 is stored as 150. -/
theorem C1_counterexample :
    healthInvB stC1 = true ∧
    ((lookupUser (updatePlayerPosition stC1 "p"
        { x := 0, y := 0, angle := 0, health := 150 }).1.userStates "p").getD
        emptyPlayer).health = some 150 ∧
    healthInvB (updatePlayerPosition stC1 "p"
        { x := 0, y := 0, angle := 0, health := 150 }).1 = false := by decide

/-- C1 (amended): the operations that compute health server-side keep every
persisted health in [0, 100]: joinRoom (it writes 100), playerHit with
nonnegative damage (it clamps at 0 from a base at most 100), playerDied
(it writes 100) and setPlayerData preserve the invariant; but
updatePlayerPosition persists the client-supplied health unvalidated and
can violate it, and playerHit with negative damage can push health above
100. -/
theorem C1_health_bounds_amended (srv : Server) (st : GlobalState) (caller : String)
    (roomId : Option String) (now : Int) (r : Nat → Nat) (nm : String)
    (hd : HitData) (dd : DeathData)
    (hinv : healthInvB st = true) (hdam : 0 ≤ hd.damage) :
    healthInvB (joinRoom srv st caller roomId now r).1 = true ∧
    healthInvB (playerHit st hd).1 = true ∧
    healthInvB (playerDied st dd).1 = true ∧
    healthInvB (setPlayerData st caller nm).1 = true := by
  have hemp : healthOkB emptyPlayer = true := rfl
  have hjoin : ∀ p : PlayerState, healthOkB p = true →
      healthOkB { p with
        x := some ((r 0 % 1800 + 100 : Nat) : Int)
        y := some ((r 1 % 1800 + 100 : Nat) : Int)
        health := some 100
        score := some 0 } = true := by
    intro p _
    show decide ((0 : Int) ≤ 100 ∧ (100 : Int) ≤ 100) = true
    decide
  have hbody : healthInvB (joinRoomBody srv st caller now r) = true := by
    unfold healthInvB
    rw [joinRoomBody_userStates]
    exact all_updateUser _ _ _ hinv hemp hjoin
  refine ⟨?_, ?_, ?_, ?_⟩
  · cases roomId with
    | none => exact hbody
    | some rid =>
        by_cases hfull : st.roomUsers.length ≥ srv.MAX_PLAYERS_PER_ROOM
        · simpa [joinRoom, hfull] using hinv
        · simpa [joinRoom, hfull] using hbody
  · cases hl : lookupUser st.userStates hd.targetId with
    | none => simpa [playerHit, hl] using hinv
    | some ts =>
        have hts := healthOkB_bounds ts (all_lookupUser _ _ _ hinv hl)
        have hok : ∀ p : PlayerState, healthOkB p = true →
            healthOkB { p with
              health := some (max 0 (healthOrDefault ts.health - hd.damage)) } = true := by
          intro p _
          rw [healthOkB_some]
          simp only [decide_eq_true_eq]
          refine ⟨le_max_left 0 _, max_le (by norm_num) (by omega)⟩
        simp only [playerHit, hl]
        exact all_updateUser _ _ _ hinv hemp hok
  · have hvictim : ∀ p : PlayerState, healthOkB p = true →
        healthOkB { p with health := some 100 } = true := by
      intro p _
      show decide ((0 : Int) ≤ 100 ∧ (100 : Int) ≤ 100) = true
      decide
    exact healthInvB_playerDiedKiller _ _ _
      (all_updateUser _ _ _ hinv hemp hvictim)
  · exact all_updateUser _ _ _ hinv hemp (fun p hp => by rwa [healthOkB_set_name])

/-- C1 witness: on a concrete store the invariant is preserved by a join, a
hit with damage 60, a death resolution, and a name change. -/
theorem C1_health_bounds_amended_witness :
    healthInvB stC1 = true ∧
    healthInvB (playerHit stC1 { targetId := "p", attackerId := "q", damage := 60 }).1
      = true := by
  refine ⟨by decide, ?_⟩
  exact (C1_health_bounds_amended server stC1 "p" none 0 rzero "nm"
    { targetId := "p", attackerId := "q", damage := 60 }
    { playerId := "p", killerId := none } (by decide) (by decide)).2.1

theorem playerDiedKiller_increment (st1 : GlobalState) (pid k : String) (ks : PlayerState)
    (hk1 : k ≠ "") (hk2 : k ≠ pid) (hl : lookupUser st1.userStates k = some ks) :
    playerDiedKiller st1 pid (some k)
      = { st1 with
          userStates := updateUser st1.userStates k
            (fun p => { p with score := some (ks.score.getD 0 + 1) }) } := by
  simp only [playerDiedKiller]
  rw [if_pos ⟨hk1, hk2⟩, hl]

theorem playerDiedKiller_skip (st1 : GlobalState) (pid : String) (kid : Option String)
    (h : ∀ k, kid = some k → k = "" ∨ k = pid ∨ lookupUser st1.userStates k = none) :
    playerDiedKiller st1 pid kid = st1 := by
  cases kid with
  | none => rfl
  | some k =>
      simp only [playerDiedKiller]
      rcases h k rfl with h1 | h1 | h1
      · rw [if_neg]
        intro hc
        exact hc.1 h1
      · rw [if_neg]
        intro hc
        exact hc.2 h1
      · by_cases hc : k ≠ "" ∧ k ≠ pid
        · rw [if_pos hc, h1]
        · rw [if_neg hc]

theorem scoreValL_updateUser_preserve (us : List (String × PlayerState)) (id uid : String)
    (f : PlayerState → PlayerState) (hf : ∀ p, (f p).score = p.score) :
    scoreValL (updateUser us id f) uid = scoreValL us uid :=
  getD_score_updateUser_preserve us id uid f hf

theorem scoreValL_updateUser_other (us : List (String × PlayerState)) (id uid : String)
    (f : PlayerState → PlayerState) (h : uid ≠ id) :
    scoreValL (updateUser us id f) uid = scoreValL us uid := by
  unfold scoreValL
  rw [lookupUser_updateUser_other _ _ _ _ h]

theorem scoreValL_updateUser_setScore (us : List (String × PlayerState)) (k : String)
    (w : Int) :
    scoreValL (updateUser us k (fun p => { p with score := some w })) k = w := by
  unfold scoreValL
  rw [lookupUser_updateUser_self]
  rfl

theorem playerDiedKiller_userStates_cases (st1 : GlobalState) (pid : String)
    (kid : Option String) :
    (playerDiedKiller st1 pid kid).userStates = st1.userStates ∨
    ∃ k ks, kid = some k ∧ k ≠ "" ∧ k ≠ pid ∧ lookupUser st1.userStates k = some ks ∧
      (playerDiedKiller st1 pid kid).userStates
        = updateUser st1.userStates k
            (fun p => { p with score := some (ks.score.getD 0 + 1) }) := by
  cases kid with
  | none => left; rfl
  | some k =>
      by_cases hc : k ≠ "" ∧ k ≠ pid
      · cases hlk : lookupUser st1.userStates k with
        | none =>
            left
            have hskip : ∀ k2, (some k : Option String) = some k2 → k2 = "" ∨ k2 = pid ∨
                lookupUser st1.userStates k2 = none := by
              intro k2 hk2
              injection hk2 with hx
              subst hx
              right; right; exact hlk
            rw [playerDiedKiller_skip st1 pid (some k) hskip]
        | some ks =>
            right
            refine ⟨k, ks, rfl, hc.1, hc.2, hlk, ?_⟩
            rw [playerDiedKiller_increment st1 pid k ks hc.1 hc.2 hlk]
      · left
        have hskip : ∀ k2, (some k : Option String) = some k2 → k2 = "" ∨ k2 = pid ∨
            lookupUser st1.userStates k2 = none := by
          intro k2 hk2
          injection hk2 with hx
          subst hx
          rcases not_and_or.mp hc with h1 | h1
          · left; exact not_not.mp h1
          · right; left; exact not_not.mp h1
        rw [playerDiedKiller_skip st1 pid (some k) hskip]

theorem playerDied_victim_health (st : GlobalState) (d : DeathData) :
    ((lookupUser (playerDied st d).1.userStates d.playerId).getD emptyPlayer).health
      = some 100 := by
  have hres : (playerDied st d).1.userStates
      = (playerDiedKiller
          { st with
            userStates := updateUser st.userStates d.playerId
              (fun p => { p with health := some 100 }) }
          d.playerId d.killerId).userStates := rfl
  rw [hres]
  rcases playerDiedKiller_userStates_cases
      { st with
        userStates := updateUser st.userStates d.playerId
          (fun p => { p with health := some 100 }) }
      d.playerId d.killerId with h | ⟨k, ks, hkid, h1, h2, hlk, h⟩
  · rw [h]
    show ((lookupUser (updateUser st.userStates d.playerId
        (fun p => { p with health := some 100 })) d.playerId).getD emptyPlayer).health
      = some 100
    rw [lookupUser_updateUser_self]
    rfl
  · rw [h, lookupUser_updateUser_other _ _ _ _ (Ne.symm h2)]
    show ((lookupUser (updateUser st.userStates d.playerId
        (fun p => { p with health := some 100 })) d.playerId).getD emptyPlayer).health
      = some 100
    rw [lookupUser_updateUser_self]
    rfl

theorem playerDied_scores_skip (st : GlobalState) (d : DeathData)
    (hnone : ∀ k, d.killerId = some k → k = "" ∨ k = d.playerId ∨
        lookupUser st.userStates k = none) (uid : String) :
    scoreVal (playerDied st d).1 uid = scoreVal st uid := by
  have hskip : ∀ k, d.killerId = some k → k = "" ∨ k = d.playerId ∨
      lookupUser (updateUser st.userStates d.playerId
        (fun p => { p with health := some 100 })) k = none := by
    intro k hk
    rcases hnone k hk with h1 | h1 | h1
    · left; exact h1
    · right; left; exact h1
    · by_cases hkp : k = d.playerId
      · right; left; exact hkp
      · right; right
        rw [lookupUser_updateUser_other _ _ _ _ hkp, h1]
  have h := playerDiedKiller_skip
      { st with
        userStates := updateUser st.userStates d.playerId
          (fun p => { p with health := some 100 }) }
      d.playerId d.killerId hskip
  have hres : (playerDied st d).1
      = playerDiedKiller
          { st with
            userStates := updateUser st.userStates d.playerId
              (fun p => { p with health := some 100 }) }
          d.playerId d.killerId := rfl
  rw [hres, h]
  show scoreValL (updateUser st.userStates d.playerId
      (fun p => { p with health := some 100 })) uid = scoreValL st.userStates uid
  exact scoreValL_updateUser_preserve _ _ _ _ (fun p => rfl)

theorem playerDied_scores_increment (st : GlobalState) (d : DeathData) (k : String)
    (hk : d.killerId = some k) (hk1 : k ≠ "") (hk2 : k ≠ d.playerId)
    (hsome : (lookupUser st.userStates k).isSome = true) :
    scoreVal (playerDied st d).1 k = scoreVal st k + 1 ∧
    ∀ uid, uid ≠ k → scoreVal (playerDied st d).1 uid = scoreVal st uid := by
  obtain ⟨ks0, hks0⟩ := Option.isSome_iff_exists.mp hsome
  have hlk : lookupUser (updateUser st.userStates d.playerId
      (fun p => { p with health := some 100 })) k = some ks0 := by
    rw [lookupUser_updateUser_other _ _ _ _ hk2, hks0]
  have hinc := playerDiedKiller_increment
      { st with
        userStates := updateUser st.userStates d.playerId
          (fun p => { p with health := some 100 }) }
      d.playerId k ks0 hk1 hk2 hlk
  have hres : (playerDied st d).1
      = playerDiedKiller
          { st with
            userStates := updateUser st.userStates d.playerId
              (fun p => { p with health := some 100 }) }
          d.playerId d.killerId := rfl
  constructor
  · rw [hres, hk, hinc]
    show scoreValL (updateUser (updateUser st.userStates d.playerId
        (fun p => { p with health := some 100 })) k
        (fun p => { p with score := some (ks0.score.getD 0 + 1) })) k
      = scoreValL st.userStates k + 1
    rw [scoreValL_updateUser_setScore]
    unfold scoreValL
    rw [hks0]
    rfl
  · intro uid huid
    rw [hres, hk, hinc]
    show scoreValL (updateUser (updateUser st.userStates d.playerId
        (fun p => { p with health := some 100 })) k
        (fun p => { p with score := some (ks0.score.getD 0 + 1) })) uid
      = scoreValL st.userStates uid
    rw [scoreValL_updateUser_other _ _ _ _ huid]
    exact scoreValL_updateUser_preserve _ _ _ _ (fun p => rfl)

/-- C4 (confirmed): playerDied always sets the victim's health to 100 and
returns success; the killer's score increases by exactly 1 (with every
other player's effective score unchanged) exactly when the killer id is
present (truthy), differs from the victim, and the killer's record exists;
in every other case every player's effective score is unchanged and no
error is raised. -/
theorem C4_playerDied_resolves (st : GlobalState) (d : DeathData) :
    ((lookupUser (playerDied st d).1.userStates d.playerId).getD emptyPlayer).health
      = some 100 ∧
    (playerDied st d).2 = "success" ∧
    (∀ k, d.killerId = some k → k ≠ "" → k ≠ d.playerId →
        (lookupUser st.userStates k).isSome = true →
        scoreVal (playerDied st d).1 k = scoreVal st k + 1 ∧
        ∀ uid, uid ≠ k → scoreVal (playerDied st d).1 uid = scoreVal st uid) ∧
    ((∀ k, d.killerId = some k → k = "" ∨ k = d.playerId ∨
        lookupUser st.userStates k = none) →
      ∀ uid, scoreVal (playerDied st d).1 uid = scoreVal st uid) := by
  refine ⟨playerDied_victim_health st d, rfl, ?_, ?_⟩
  · intro k hk hk1 hk2 hsome
    exact playerDied_scores_increment st d k hk hk1 hk2 hsome
  · intro hnone uid
    exact playerDied_scores_skip st d hnone uid

/-- C4 witness: on a concrete store the killer's score goes from 5 to 6 and
the victim's health is reset to 100. -/
theorem C4_playerDied_resolves_witness :
    scoreVal (playerDied stC4 { playerId := "v", killerId := some "k" }).1 "k"
      = scoreVal stC4 "k" + 1 ∧
    ((lookupUser (playerDied stC4 { playerId := "v", killerId := some "k" }).1.userStates
        "v").getD emptyPlayer).health = some 100 := by
  have h := C4_playerDied_resolves stC4 { playerId := "v", killerId := some "k" }
  exact ⟨(h.2.2.1 "k" rfl (by decide) (by decide) (by decide)).1, h.1⟩

theorem tickExpire_keep (snapshot rs2 : RoomState) (now : Int)
    (hkeep : ((snapshot.powerups.getD []).filter
        (fun p => decide (now - p.createdAt < 30000))).length
      = (snapshot.powerups.getD []).length) :
    tickExpire snapshot rs2 now = rs2 := by
  unfold tickExpire
  by_cases h0 : (snapshot.powerups.getD []).length > 0
  · rw [if_pos h0, if_neg (fun hne => hne hkeep)]
  · rw [if_neg h0]

theorem tickExpire_drop (snapshot rs2 : RoomState) (now : Int)
    (hne : ((snapshot.powerups.getD []).filter
        (fun p => decide (now - p.createdAt < 30000))).length
      ≠ (snapshot.powerups.getD []).length) :
    tickExpire snapshot rs2 now
      = { rs2 with
          powerups := some ((snapshot.powerups.getD []).filter
            (fun p => decide (now - p.createdAt < 30000))) } := by
  unfold tickExpire
  have h0 : (snapshot.powerups.getD []).length > 0 := by
    rcases Nat.eq_zero_or_pos (snapshot.powerups.getD []).length with h | h
    · exfalso
      apply hne
      rw [List.length_eq_zero.mp h]
      rfl
    · exact h
  rw [if_pos h0, if_pos hne]

/-- C6 counterexample: the claim says a tick with lastPowerupSpawn =
now - 15000 leaves exactly one new powerup present in the list when the
tick completes; but when the pre-tick list holds an expired powerup, the
expiry step persists the filtered pre-spawn snapshot over the spawn's
write, so the tick ends with an empty list — the new powerup is absent. -/
theorem C6_counterexample :
    (100000 : Int) - rsC6.lastPowerupSpawn.getD 0 = 15000 ∧
    (roomTick server rsC6 16 100000 rzero).powerups = some [] ∧
    (roomTick server rsC6 16 100000 rzero).lastPowerupSpawn = some 100000 := by
  decide

/-- C6 (amended): the tick invokes the spawner exactly when
now - lastPowerupSpawn exceeds the 10000 ms interval; with lastPowerupSpawn
= now - 15000 the spawner runs, appends one new powerup and advances
lastPowerupSpawn to now, and the new powerup is still present when the tick
completes provided no pre-existing powerup has expired (otherwise the
expiry step overwrites the list with the filtered pre-spawn snapshot and
the new powerup is lost); when the interval has not elapsed,
lastPowerupSpawn is unchanged and no powerup is added. -/
theorem C6_tick_spawn_amended (rs rscold : RoomState) (deltaMS now : Int) (r : Nat → Nat)
    (hlast : rs.lastPowerupSpawn = some (now - 15000))
    (hyoung : ∀ p ∈ rs.powerups.getD [], now - p.createdAt < 30000)
    (hcold : ¬ now - rscold.lastPowerupSpawn.getD 0 > server.POWERUP_SPAWN_INTERVAL) :
    (roomTick server rs deltaMS now r).powerups
      = some (rs.powerups.getD [] ++ [newPowerup server now r]) ∧
    (roomTick server rs deltaMS now r).lastPowerupSpawn = some now ∧
    (roomTick server rscold deltaMS now r).lastPowerupSpawn
      = rscold.lastPowerupSpawn ∧
    ((roomTick server rscold deltaMS now r).powerups = rscold.powerups ∨
      (roomTick server rscold deltaMS now r).powerups
        = some ((rscold.powerups.getD []).filter
            (fun p => decide (now - p.createdAt < 30000)))) := by
  have hcondT : now - rs.lastPowerupSpawn.getD 0 > server.POWERUP_SPAWN_INTERVAL := by
    rw [hlast]
    show now - (now - 15000) > (10000 : Int)
    omega
  have hspawn : tickSpawn server rs (tickGameTime rs deltaMS) now r
      = spawnPowerupRS server (tickGameTime rs deltaMS) now r := by
    unfold tickSpawn
    rw [if_pos hcondT]
  have hkeep : ((rs.powerups.getD []).filter
      (fun p => decide (now - p.createdAt < 30000))).length
      = (rs.powerups.getD []).length := by
    rw [List.filter_eq_self.mpr (fun a ha => decide_eq_true (hyoung a ha))]
  have hrt : roomTick server rs deltaMS now r
      = spawnPowerupRS server (tickGameTime rs deltaMS) now r := by
    unfold roomTick
    rw [tickExpire_keep rs _ now hkeep, hspawn]
  have hspawnc : tickSpawn server rscold (tickGameTime rscold deltaMS) now r
      = tickGameTime rscold deltaMS := by
    unfold tickSpawn
    rw [if_neg hcold]
  have hcoldcase : roomTick server rscold deltaMS now r = tickGameTime rscold deltaMS ∨
      roomTick server rscold deltaMS now r
        = { tickGameTime rscold deltaMS with
            powerups := some ((rscold.powerups.getD []).filter
              (fun p => decide (now - p.createdAt < 30000))) } := by
    unfold roomTick
    rw [hspawnc]
    by_cases hne : ((rscold.powerups.getD []).filter
        (fun p => decide (now - p.createdAt < 30000))).length
        ≠ (rscold.powerups.getD []).length
    · right
      rw [tickExpire_drop rscold _ now hne]
    · left
      rw [tickExpire_keep rscold _ now (not_not.mp hne)]
  refine ⟨?_, ?_, ?_, ?_⟩
  · rw [hrt]; rfl
  · rw [hrt]; rfl
  · rcases hcoldcase with h | h <;> rw [h] <;> rfl
  · rcases hcoldcase with h | h
    · left; rw [h]; rfl
    · right; rw [h]

/-- C6 witness: a tick due for a spawn whose existing powerup is young ends
with both the old and the newly spawned powerup present and
lastPowerupSpawn advanced. -/
theorem C6_tick_spawn_amended_witness :
    (roomTick server rsC6w 16 100000 rzero).powerups
      = some (rsC6w.powerups.getD [] ++ [newPowerup server 100000 rzero]) ∧
    (roomTick server rsC6w 16 100000 rzero).lastPowerupSpawn = some 100000 := by
  have h := C6_tick_spawn_amended rsC6w rsCold 16 100000 rzero (by decide) (by decide)
    (by decide)
  exact ⟨h.1, h.2.1⟩

/-- C7 (confirmed): after a tick, every snapshot powerup strictly older
than the 30000 ms window is absent from the room's powerups list, every
snapshot powerup strictly younger remains, and the filtered list is
persisted only when its length differs from the original (otherwise the
expiry step leaves the state exactly as the spawn step produced it). -/
theorem C7_tick_powerup_expiry (rs : RoomState) (ps : List Powerup) (deltaMS now : Int)
    (r : Nat → Nat) (hps : rs.powerups = some ps) :
    (∀ p ∈ ps, now - p.createdAt > 30000 →
        p ∉ ((roomTick server rs deltaMS now r).powerups.getD [])) ∧
    (∀ q ∈ ps, now - q.createdAt < 30000 →
        q ∈ ((roomTick server rs deltaMS now r).powerups.getD [])) ∧
    ((ps.filter (fun p => decide (now - p.createdAt < 30000))).length = ps.length →
        roomTick server rs deltaMS now r
          = tickSpawn server rs (tickGameTime rs deltaMS) now r) := by
  have hXp : (tickSpawn server rs (tickGameTime rs deltaMS) now r).powerups
        = rs.powerups ∨
      (tickSpawn server rs (tickGameTime rs deltaMS) now r).powerups
        = some (rs.powerups.getD [] ++ [newPowerup server now r]) := by
    unfold tickSpawn
    by_cases hc : now - rs.lastPowerupSpawn.getD 0 > server.POWERUP_SPAWN_INTERVAL
    · right
      rw [if_pos hc]
      rfl
    · left
      rw [if_neg hc]
      rfl
  refine ⟨?_, ?_, ?_⟩
  · intro p hp hold
    have hne : ((rs.powerups.getD []).filter
        (fun q => decide (now - q.createdAt < 30000))).length
        ≠ (rs.powerups.getD []).length := by
      rw [hps]
      intro heq
      have hall := List.filter_length_eq_length.mp heq p hp
      have h2 := of_decide_eq_true hall
      omega
    show p ∉ ((tickExpire rs
        (tickSpawn server rs (tickGameTime rs deltaMS) now r) now).powerups.getD [])
    rw [tickExpire_drop rs _ now hne, hps]
    intro hmem
    have h3 := of_decide_eq_true (List.mem_filter.mp hmem).2
    omega
  · intro q hq hyq
    by_cases hlen : ((rs.powerups.getD []).filter
        (fun p2 => decide (now - p2.createdAt < 30000))).length
        = (rs.powerups.getD []).length
    · show q ∈ ((tickExpire rs
          (tickSpawn server rs (tickGameTime rs deltaMS) now r) now).powerups.getD [])
      rw [tickExpire_keep rs _ now hlen]
      rcases hXp with h | h
      · rw [h, hps]
        exact hq
      · rw [h, hps]
        exact List.mem_append.mpr (Or.inl hq)
    · show q ∈ ((tickExpire rs
          (tickSpawn server rs (tickGameTime rs deltaMS) now r) now).powerups.getD [])
      rw [tickExpire_drop rs _ now hlen, hps]
      exact List.mem_filter.mpr ⟨hq, decide_eq_true hyq⟩
  · intro hkeep
    have hkeep' : ((rs.powerups.getD []).filter
        (fun p => decide (now - p.createdAt < 30000))).length
        = (rs.powerups.getD []).length := by
      rw [hps]
      exact hkeep
    show tickExpire rs (tickSpawn server rs (tickGameTime rs deltaMS) now r) now
      = tickSpawn server rs (tickGameTime rs deltaMS) now r
    exact tickExpire_keep rs _ now hkeep'

/-- C7 witness: at now = 100000, a powerup created at 69999 (age 30001) is
gone after the tick while one created at 70001 (age 29999) remains. -/
theorem C7_tick_powerup_expiry_witness :
    pOld ∉ ((roomTick server rsC7 16 100000 rzero).powerups.getD []) ∧
    pYoung ∈ ((roomTick server rsC7 16 100000 rzero).powerups.getD []) := by
  have h := C7_tick_powerup_expiry rsC7 [pOld, pYoung] 16 100000 rzero rfl
  exact ⟨h.1 pOld (by decide) (by decide), h.2.1 pYoung (by decide) (by decide)⟩

theorem joinRoom_roomState_initialized (srv : Server) (st1 : GlobalState) (c : String)
    (rid : Option String) (n : Int) (rr : Nat → Nat)
    (h : st1.roomState.initialized = true) :
    (joinRoom srv st1 c rid n rr).1.roomState = st1.roomState := by
  have hbody : (joinRoomBody srv st1 c n rr).roomState = st1.roomState := by
    rw [joinRoomBody_roomState, if_pos h]
  cases rid with
  | none => exact hbody
  | some rid2 =>
      by_cases hfull : st1.roomUsers.length ≥ srv.MAX_PLAYERS_PER_ROOM
      · simp [joinRoom, hfull]
      · simpa [joinRoom, hfull] using hbody

/-- C5 (confirmed): the first successful join to an uninitialized room sets
the obstacle layout (of exactly 30 coordinate pairs, the configured count)
together with initialized = true, and any later sequential join to that
room leaves the obstacles exactly as they are — it never regenerates or
overwrites them. -/
theorem C5_obstacles_once (st : GlobalState) (caller caller2 : String)
    (roomId roomId2 : Option String) (now now2 : Int) (r r2 : Nat → Nat)
    (hinit : st.roomState.initialized = false)
    (hok : ∃ rid, (joinRoom server st caller roomId now r).2 = Except.ok rid) :
    (joinRoom server st caller roomId now r).1.roomState.obstacles
      = some (generateObstacles server (fun i => r (i + 2))) ∧
    (generateObstacles server (fun i => r (i + 2))).length = 30 ∧
    (joinRoom server st caller roomId now r).1.roomState.initialized = true ∧
    (joinRoom server (joinRoom server st caller roomId now r).1 caller2 roomId2
        now2 r2).1.roomState.obstacles
      = (joinRoom server st caller roomId now r).1.roomState.obstacles := by
  have hfirst : (joinRoom server st caller roomId now r).1
      = joinRoomBody server st caller now r := by
    cases roomId with
    | none => rfl
    | some rid =>
        obtain ⟨rid2, hok2⟩ := hok
        by_cases hfull : st.roomUsers.length ≥ server.MAX_PLAYERS_PER_ROOM
        · simp [joinRoom, hfull] at hok2
        · simp [joinRoom, hfull]
  have hrs : (joinRoomBody server st caller now r).roomState
      = initRoomState server st.roomState now (fun i => r (i + 2)) := by
    rw [joinRoomBody_roomState, if_neg (by simp [hinit])]
  have h3 : (joinRoom server st caller roomId now r).1.roomState.initialized = true := by
    rw [hfirst, hrs]
    rfl
  refine ⟨?_, ?_, h3, ?_⟩
  · rw [hfirst, hrs]
    rfl
  · simp [generateObstacles]
    rfl
  · rw [joinRoom_roomState_initialized server _ caller2 roomId2 now2 r2 h3]

/-- C5 witness: a join into a fresh empty room writes a 30-entry layout and
a second join leaves it unchanged. -/
theorem C5_obstacles_once_witness :
    (joinRoom server {} "a" none 0 rzero).1.roomState.obstacles
      = some (generateObstacles server (fun i => rzero (i + 2))) ∧
    (generateObstacles server (fun i => rzero (i + 2))).length = 30 ∧
    (joinRoom server (joinRoom server {} "a" none 0 rzero).1 "b" none 0 rone).1.roomState.obstacles
      = (joinRoom server {} "a" none 0 rzero).1.roomState.obstacles := by
  have h := C5_obstacles_once {} "a" "b" none none 0 0 rzero rone rfl
    ⟨"new-room", rfl⟩
  exact ⟨h.1, h.2.1, h.2.2.2⟩

/-- C8 counterexample: the claim says any two powerups ever added to a
room's list have distinct ids (creation time plus a counter); but the id is
the template string with the timestamp alone, so two spawns at the same
clock timestamp produce the same id. -/
theorem C8_counterexample :
    ((spawnPowerupRS server (spawnPowerupRS server {} 5000 rzero) 5000
        rone).powerups.getD []).map Powerup.id
      = ["powerup_5000", "powerup_5000"] ∧
    ¬ List.Pairwise (fun a b => a.id ≠ b.id)
      ((spawnPowerupRS server (spawnPowerupRS server {} 5000 rzero) 5000
          rone).powerups.getD []) := by
  decide

/-- C8 (amended): a powerup id is derived from the creation timestamp
alone — it is the string powerup_ followed by the timestamp, with no
counter — so two powerups spawned at the same timestamp share one id, and
two powerup ids are equal exactly when the decimal representations of
their creation timestamps are equal. -/
theorem C8_powerup_id_amended (now1 now2 : Int) (r1 r2 : Nat → Nat) :
    (newPowerup server now1 r1).id = "powerup_" ++ toString now1 ∧
    (newPowerup server now1 r1).createdAt = now1 ∧
    ((newPowerup server now1 r1).id = (newPowerup server now2 r2).id
      ↔ toString now1 = toString now2) := by
  refine ⟨rfl, rfl, ?_⟩
  constructor
  · intro h
    have h2 : ("powerup_" ++ toString now1) = ("powerup_" ++ toString now2) := h
    have h3 : ("powerup_" ++ toString now1).data = ("powerup_" ++ toString now2).data := by
      rw [h2]
    rw [String.data_append, String.data_append] at h3
    exact String.ext (List.append_cancel_left h3)
  · intro h
    show ("powerup_" ++ toString now1) = ("powerup_" ++ toString now2)
    rw [h]

/-- C9 (code bug): the lost-update interleaving of two first-joins — both
read the initialized flag before either writes — makes both joiners pass
the check: two distinct obstacle layouts are generated and written, a
reader between the writes observes the first layout, a reader after the
final write observes the second, so the layouts observed diverge. -/
theorem C9_first_join_race :
    (runInitSchedule server 1000 rzero rone {} raceSchedule).written.length = 2 ∧
    (runInitSchedule server 1000 rzero rone {} raceSchedule).written
      = [generateObstacles server rzero, generateObstacles server rone] ∧
    (runInitSchedule server 1000 rzero rone {} (raceSchedule.take 3)).room.obstacles
      = some (generateObstacles server rzero) ∧
    (runInitSchedule server 1000 rzero rone {} raceSchedule).room.obstacles
      = some (generateObstacles server rone) ∧
    generateObstacles server rzero ≠ generateObstacles server rone := by
  decide

/-- C8 witness: at timestamp 5000 the id is powerup_5000 regardless of the
random stream, and equality of ids at timestamps 5000 and 6000 reduces to
equality of the timestamp strings. -/
theorem C8_powerup_id_amended_witness :
    (newPowerup server 5000 rzero).id = "powerup_" ++ toString (5000 : Int) ∧
    ((newPowerup server 5000 rzero).id = (newPowerup server 6000 rone).id
      ↔ toString (5000 : Int) = toString (6000 : Int)) := by
  have h := C8_powerup_id_amended 5000 6000 rzero rone
  exact ⟨h.1, h.2.2⟩
